import Mathlib

/-!
Verification of the metric-derivation and filtering pipeline of the
Electric School Bus dashboard (`src/app.py`).

The pipeline slices a pandas dataframe by a selected (state, city) pair and
computes aggregate metrics.  We embed the relevant pandas semantics
shallowly:

* Numeric cells are modelled by `PFloat`: an exact rational, `+inf`, `-inf`,
  or `NaN`.  Pandas represents a missing (null) float cell as `NaN`, so
  `PFloat.nan` doubles as the null value; `Series.mean()` skips `NaN` but
  not infinities, and division of a positive number by zero yields `+inf`
  (numpy/pandas true-division semantics), `0/0` yields `NaN`.
* A dataframe is a `List Row`.  The derived `esb_adoption_rate` column,
  which the script assigns in place (line 69 of `src/app.py`), is an
  `Option PFloat` field: `none` means the column is absent, as it is right
  after loading.
* `Series.str.contains(pat, case=False, na=False)` is modelled as
  case-insensitive substring containment (`strContainsCI`), which is the
  behaviour of `str.contains` for patterns free of regex metacharacters;
  a null cell never matches (`na=False`).
-/

namespace ESB

/-- Pandas/numpy float cell: exact rational value, signed infinity, or NaN
(NaN is also pandas' representation of a missing value). -/
inductive PFloat where
  | val : ℚ → PFloat
  | pinf : PFloat
  | ninf : PFloat
  | nan : PFloat
deriving DecidableEq, Repr

namespace PFloat

/-- Whether a cell is NaN (pandas: missing). -/
def isNan : PFloat → Bool
  | nan => true
  | _ => false

/-- IEEE-style addition, as numpy performs it on float cells. -/
def addP : PFloat → PFloat → PFloat
  | nan, _ => nan
  | _, nan => nan
  | val a, val b => val (a + b)
  | pinf, ninf => nan
  | ninf, pinf => nan
  | pinf, _ => pinf
  | _, pinf => pinf
  | ninf, _ => ninf
  | _, ninf => ninf

/-- IEEE-style multiplication, as numpy performs it on float cells. -/
def mulP : PFloat → PFloat → PFloat
  | nan, _ => nan
  | _, nan => nan
  | val a, val b => val (a * b)
  | pinf, val b => if b = 0 then nan else if 0 < b then pinf else ninf
  | val a, pinf => if a = 0 then nan else if 0 < a then pinf else ninf
  | ninf, val b => if b = 0 then nan else if 0 < b then ninf else pinf
  | val a, ninf => if a = 0 then nan else if 0 < a then ninf else pinf
  | pinf, pinf => pinf
  | pinf, ninf => ninf
  | ninf, pinf => ninf
  | ninf, ninf => pinf

/-- IEEE-style true division, as numpy performs it: a positive number over
zero is `+inf`, a negative one is `-inf`, and `0/0` is `NaN`. -/
def divP : PFloat → PFloat → PFloat
  | nan, _ => nan
  | _, nan => nan
  | val a, val b =>
      if b = 0 then (if a = 0 then nan else if 0 < a then pinf else ninf)
      else val (a / b)
  | pinf, val b => if 0 ≤ b then pinf else ninf
  | ninf, val b => if 0 ≤ b then ninf else pinf
  | val _, pinf => val 0
  | val _, ninf => val 0
  | pinf, _ => nan
  | ninf, _ => nan

end PFloat

open PFloat

/-- Sum of a list of float cells, folded left as numpy reduces. -/
def sumP (xs : List PFloat) : PFloat := xs.foldl addP (.val 0)

/-- `Series.mean()` with the default `skipna=True`: drop the NaN cells,
then divide their sum by their count; an empty or all-NaN series has mean
NaN (pandas: null). -/
def meanP (xs : List PFloat) : PFloat :=
  let vs := xs.filter (fun x => !(isNan x))
  if vs.length = 0 then .nan else divP (sumP vs) (.val (vs.length : ℚ))

/-- One district row of the dataframe after column selection and renaming
(lines 34-50 of `src/app.py`).  `esb_adoption_rate` is the derived column
the script later assigns in place; `none` means the column is absent. -/
structure Row where
  district : Option String
  city : Option String
  state : Option String
  latitude : PFloat
  longitude : PFloat
  total_buses : ℚ
  committed_esb : ℚ
  free_lunch_pct : PFloat
  pm25 : PFloat
  median_income : PFloat
  esb_adoption_rate : Option PFloat
deriving DecidableEq, Repr

/-- Does the character list `pat` occur as a prefix of `hay`? -/
def startsWithL : List Char → List Char → Bool
  | [], _ => true
  | _ :: _, [] => false
  | p :: ps, h :: hs => p == h && startsWithL ps hs

/-- Does the character list `pat` occur contiguously inside `hay`? -/
def containsSub (pat : List Char) : List Char → Bool
  | [] => pat.isEmpty
  | h :: t => startsWithL pat (h :: t) || containsSub pat t

/-- Lower-cased character list of a string. -/
def lowerL (s : String) : List Char := s.data.map Char.toLower

/-- Case-insensitive substring containment: the semantics of
`Series.str.contains(pat, case=False)` for patterns without regex
metacharacters. -/
def strContainsCI (hay pat : String) : Bool := containsSub (lowerL pat) (lowerL hay)

/-- `str.contains(pat, case=False, na=False)` on one cell: a null cell
never matches. -/
def matchesCI : Option String → String → Bool
  | none, _ => false
  | some s, pat => strContainsCI s pat

/-- Line 53 of `src/app.py`: the one-time percentage-scale correction
`df['free_lunch_pct'] = df['free_lunch_pct'] * 100`. -/
def normalizeFreeLunch (x : PFloat) : PFloat := mulP x (.val 100)

/-- Line 53 applied to a whole row. -/
def fixPctRow (r : Row) : Row := { r with free_lunch_pct := normalizeFreeLunch r.free_lunch_pct }

/-- Line 53 applied to the dataframe. -/
def fixPct (rows : List Row) : List Row := rows.map fixPctRow

/-- The row predicate of lines 65-66: city cell contains the selected city
and state cell contains the selected state, case-insensitively. -/
def cityPred (c s : String) (r : Row) : Bool := matchesCI r.city c && matchesCI r.state s

/-- The row predicate of line 77 (and line 138): state cell contains the
selected state, case-insensitively. -/
def statePred (s : String) (r : Row) : Bool := matchesCI r.state s

/-- Lines 65-66: `city_df` as first filtered from `df`, before any derived
column exists. -/
def city_df0 (rows : List Row) (c s : String) : List Row := rows.filter (cityPred c s)

/-- Line 69's per-row formula: `(committed_esb / total_buses) * 100`,
computed over the full table. -/
def esbRateFull (r : Row) : PFloat :=
  mulP (divP (.val r.committed_esb) (.val r.total_buses)) (.val 100)

/-- Line 70's per-row formula: `(committed_esb / total_buses) * 100`,
independently recomputed over the filtered city subset. -/
def esbRateCity (r : Row) : PFloat :=
  mulP (divP (.val r.committed_esb) (.val r.total_buses)) (.val 100)

/-- Line 69: `df['esb_adoption_rate'] = ...` assigns the derived column in
place on the loaded dataframe. -/
def dfWithRate (rows : List Row) : List Row :=
  rows.map (fun r => { r with esb_adoption_rate := some (esbRateFull r) })

/-- Line 70: `city_df['esb_adoption_rate'] = ...` on the filtered subset
(a copy, so the assignment does not reach `df`). -/
def city_df (rows : List Row) (c s : String) : List Row :=
  (city_df0 rows c s).map (fun r => { r with esb_adoption_rate := some (esbRateCity r) })

/-- `Series.sum()` of the `committed_esb` column (no NaN in an integer
column, so plain rational sum). -/
def sumCommitted (rows : List Row) : ℚ := (rows.map (fun r => r.committed_esb)).sum

/-- `Series.sum()` of the `total_buses` column. -/
def sumTotal (rows : List Row) : ℚ := (rows.map (fun r => r.total_buses)).sum

/-- Line 72: the city-scope KPI
`adoption = (city_df['committed_esb'].sum() / city_df['total_buses'].sum()) * 100`. -/
def adoption (rows : List Row) (c s : String) : PFloat :=
  mulP (divP (.val (sumCommitted (city_df rows c s))) (.val (sumTotal (city_df rows c s)))) (.val 100)

/-- Line 73: `pm25 = city_df['pm25'].mean()`. -/
def pm25City (rows : List Row) (c s : String) : PFloat :=
  meanP ((city_df rows c s).map (fun r => r.pm25))

/-- Line 74: `income = city_df['median_income'].mean()`. -/
def incomeCity (rows : List Row) (c s : String) : PFloat :=
  meanP ((city_df rows c s).map (fun r => r.median_income))

/-- Line 75: `free_lunch = city_df['free_lunch_pct'].mean()`. -/
def freeLunchCity (rows : List Row) (c s : String) : PFloat :=
  meanP ((city_df rows c s).map (fun r => r.free_lunch_pct))

/-- Line 77: `state_df = df[df['state'].str.contains(selected_state, ...)]`,
filtered from `df` after the in-place rate assignment of line 69. -/
def state_df (rows : List Row) (s : String) : List Row :=
  (dfWithRate rows).filter (statePred s)

/-- Line 79: `state_mean['esb_adoption_rate'] = state_df['esb_adoption_rate'].mean()`
— the state-scope adoption figure is the mean of the per-row rates. -/
def stateMeanRate (rows : List Row) (s : String) : PFloat :=
  meanP ((state_df rows s).map (fun r => r.esb_adoption_rate.getD .nan))

/-- Line 80: `state_mean['pm25'] = state_df['pm25'].mean()`. -/
def stateMeanPm25 (rows : List Row) (s : String) : PFloat :=
  meanP ((state_df rows s).map (fun r => r.pm25))

/-- Line 81: `state_mean['median_income'] = state_df['median_income'].mean()`. -/
def stateMeanIncome (rows : List Row) (s : String) : PFloat :=
  meanP ((state_df rows s).map (fun r => r.median_income))

/-- Line 82: `state_mean['free_lunch_pct'] = state_df['free_lunch_pct'].mean()`. -/
def stateMeanFreeLunch (rows : List Row) (s : String) : PFloat :=
  meanP ((state_df rows s).map (fun r => r.free_lunch_pct))

/-- The spec's scope-level adoption rate: sum(committedESB)/sum(totalBuses)×100
over the scope's rows (ratio-of-sums). -/
def ratioOfSums (rows : List Row) : PFloat :=
  mulP (divP (.val (sumCommitted rows)) (.val (sumTotal rows))) (.val 100)

/-- Extract the exact value of a finite cell. -/
def toVal : PFloat → Option ℚ
  | .val q => some q
  | _ => none

/-- The spec's mean: arithmetic mean of the finite values, with nulls
excluded from numerator and denominator, and null (not zero) when no
finite value is in scope. -/
def specMean (xs : List PFloat) : PFloat :=
  let vs := xs.filterMap toVal
  if vs.length = 0 then .nan else .val (vs.sum / (vs.length : ℚ))

/-- Forget the derived column: the projection of a row onto the columns
present at load time. -/
def eraseRate (r : Row) : Row := { r with esb_adoption_rate := none }

/-- A convenient concrete row builder for fixtures: no district name, no
coordinates, derived column absent. -/
def mkRow (c s : String) (total committed : ℚ) (p inc fl : PFloat) : Row :=
  { district := none, city := some c, state := some s,
    latitude := .nan, longitude := .nan,
    total_buses := total, committed_esb := committed,
    free_lunch_pct := fl, pm25 := p, median_income := inc,
    esb_adoption_rate := none }

end ESB

namespace ESB

open PFloat

/-! ### Fixture rows

The spec's §8 example scenario: three districts in Bakersfield,
CALIFORNIA, with (buses, esb, pm25) = (10, 2, 12.0), (20, 5, null),
(0, 0, 8.0); plus auxiliary rows for the distinguishing fixtures. -/

/-- Bakersfield district with 10 buses, 2 committed, pm25 = 12. -/
def bk1 : Row := mkRow "Bakersfield" "CALIFORNIA" 10 2 (.val 12) (.val 50000) (.val 60)

/-- Bakersfield district with 20 buses, 5 committed, pm25 null. -/
def bk2 : Row := mkRow "Bakersfield" "CALIFORNIA" 20 5 .nan (.val 40000) (.val 70)

/-- Bakersfield district with no buses at all. -/
def bk3 : Row := mkRow "Bakersfield" "CALIFORNIA" 0 0 (.val 8) .nan (.val 80)

/-- A district with zero buses but one committed ESB. -/
def rbad : Row := mkRow "Badtown" "TEXAS" 0 1 .nan .nan .nan

/-- Small-fleet district: 1 of 10 buses committed (10%). -/
def rA : Row := mkRow "Alpha" "STATEX" 10 1 .nan .nan .nan

/-- Large-fleet district: 81 of 90 buses committed (90%). -/
def rB : Row := mkRow "Beta" "STATEX" 90 81 .nan .nan .nan

/-! ### Helper lemmas on the float-cell semantics -/

lemma foldl_addP_vals (l : List ℚ) : ∀ a : ℚ, (l.map PFloat.val).foldl addP (.val a) = .val (a + l.sum) := by
  induction l with
  | nil => intro a; simp
  | cons x xs ih => intro a; simp [addP, ih, add_assoc]

lemma sumP_vals (l : List ℚ) : sumP (l.map PFloat.val) = .val l.sum := by
  simpa using foldl_addP_vals l 0

lemma isNan_val (q : ℚ) : isNan (.val q) = false := rfl

lemma isNan_nan : isNan .nan = true := rfl

lemma filter_notNan_of_noInf (xs : List PFloat) (h : ∀ x ∈ xs, x ≠ .pinf ∧ x ≠ .ninf) :
    xs.filter (fun x => !(isNan x)) = (xs.filterMap toVal).map PFloat.val := by
  induction xs with
  | nil => rfl
  | cons x t ih =>
    have hx := h x (List.mem_cons_self x t)
    have ht : ∀ y ∈ t, y ≠ .pinf ∧ y ≠ .ninf := fun y hy => h y (List.mem_cons_of_mem x hy)
    cases x with
    | val q => simp [List.filter_cons, List.filterMap_cons, isNan_val, toVal, ih ht]
    | pinf => exact absurd rfl hx.1
    | ninf => exact absurd rfl hx.2
    | nan => simp [List.filter_cons, List.filterMap_cons, isNan_nan, toVal, ih ht]

/-- On a series whose cells are all finite or NaN (no infinities), the
pandas skip-NaN mean agrees with the spec's null-excluding arithmetic
mean. -/
lemma meanP_eq_specMean (xs : List PFloat) (h : ∀ x ∈ xs, x ≠ .pinf ∧ x ≠ .ninf) :
    meanP xs = specMean xs := by
  unfold meanP specMean
  rw [filter_notNan_of_noInf xs h]
  by_cases hl : (xs.filterMap toVal).length = 0
  · simp [hl]
  · have hq : ((xs.filterMap toVal).length : ℚ) ≠ 0 := Nat.cast_ne_zero.mpr hl
    simp [hl, sumP_vals, divP, hq, div_eq_mul_inv]

/-! ### Membership characterizations of the filtered tables -/

lemma mem_city_df_iff (rows : List Row) (c s : String) (r : Row) :
    r ∈ city_df rows c s ↔
      ∃ r0, r0 ∈ rows ∧ cityPred c s r0 = true ∧
        { r0 with esb_adoption_rate := some (esbRateCity r0) } = r := by
  simp [city_df, city_df0, List.mem_map, List.mem_filter, and_assoc]

lemma mem_state_df_iff (rows : List Row) (s : String) (r : Row) :
    r ∈ state_df rows s ↔
      ∃ r0, r0 ∈ rows ∧ statePred s r0 = true ∧
        { r0 with esb_adoption_rate := some (esbRateFull r0) } = r := by
  constructor
  · intro hr
    rw [state_df, List.mem_filter] at hr
    obtain ⟨hm, hp⟩ := hr
    rw [dfWithRate, List.mem_map] at hm
    obtain ⟨r0, h0, heq⟩ := hm
    refine ⟨r0, h0, ?_, heq⟩
    rw [← heq] at hp
    exact hp
  · rintro ⟨r0, h0, hp, heq⟩
    rw [state_df, List.mem_filter]
    refine ⟨?_, ?_⟩
    · rw [dfWithRate, List.mem_map]
      exact ⟨r0, h0, heq⟩
    · rw [← heq]
      exact hp

/-- Assigning the derived column does not change the `committed_esb` sums. -/
lemma sumCommitted_city_df (rows : List Row) (c s : String) :
    sumCommitted (city_df rows c s) = sumCommitted (city_df0 rows c s) := by
  simp [sumCommitted, city_df, List.map_map]
  rfl

/-- Assigning the derived column does not change the `total_buses` sums. -/
lemma sumTotal_city_df (rows : List Row) (c s : String) :
    sumTotal (city_df rows c s) = sumTotal (city_df0 rows c s) := by
  simp [sumTotal, city_df, List.map_map]
  rfl

end ESB

namespace ESB

open PFloat

/-- Claim C4: for every loaded row, `freeLunchPct` after normalization
equals the raw stored 0-1 fraction multiplied by 100 (applied exactly once
by line 53), and lies in [0,100] for well-formed input. -/
theorem free_lunch_normalization (r : Row) (q : ℚ)
    (h : r.free_lunch_pct = .val q) (h0 : 0 ≤ q) (h1 : q ≤ 1) :
    (fixPctRow r).free_lunch_pct = .val (q * 100) ∧ 0 ≤ q * 100 ∧ q * 100 ≤ 100 := by
  refine ⟨?_, by positivity, by linarith⟩
  simp [fixPctRow, normalizeFreeLunch, h, mulP]

/-- Witness for C4 at the raw fraction 3/5. -/
theorem free_lunch_normalization_witness :
    (fixPctRow (mkRow "Bakersfield" "CALIFORNIA" 10 2 .nan .nan (.val (3 / 5)))).free_lunch_pct
        = .val (3 / 5 * 100) ∧
      (0 : ℚ) ≤ 3 / 5 * 100 ∧ (3 : ℚ) / 5 * 100 ≤ 100 :=
  free_lunch_normalization _ (3 / 5) rfl (by norm_num) (by norm_num)

/-- Claim C2, counterexample: a row with `total_buses = 0` but
`committed_esb = 1` gets per-row rate `+inf`, not null, and that infinity
propagates into the state-level mean of per-row rates. -/
theorem zero_bus_rate_infinite_cex :
    esbRateFull rbad = .pinf ∧ PFloat.pinf ≠ PFloat.nan ∧
      stateMeanRate [rbad] "TEXAS" = .pinf := by
  refine ⟨?_, by decide, ?_⟩ <;>
    norm_num [esbRateFull, rbad, mkRow, divP, mulP, stateMeanRate, state_df, dfWithRate,
      statePred, matchesCI, strContainsCI, lowerL, containsSub, startsWithL, meanP, sumP,
      addP, isNan]

/-- Claim C2, amended: with `total_buses = 0`, the per-row rate is NaN
(pandas null, skipped by mean aggregation) when `committed_esb = 0`, but
`+inf` when `committed_esb > 0`. -/
theorem zero_bus_rate_semantics (r : Row) (h : r.total_buses = 0) :
    (r.committed_esb = 0 →
      esbRateFull r = .nan ∧ ∀ xs, meanP (esbRateFull r :: xs) = meanP xs) ∧
    (0 < r.committed_esb → esbRateFull r = .pinf) := by
  constructor
  · intro hc
    have hr : esbRateFull r = .nan := by simp [esbRateFull, h, hc, divP, mulP]
    refine ⟨hr, fun xs => ?_⟩
    rw [hr]
    simp [meanP, List.filter_cons, isNan_nan]
  · intro hc
    have hc0 : r.committed_esb ≠ 0 := ne_of_gt hc
    norm_num [esbRateFull, h, divP, hc0, hc, mulP]

/-- Witness for the amended C2 at the zero-bus, zero-committed row. -/
theorem zero_bus_rate_semantics_witness :
    bk3.total_buses = 0 ∧ bk3.committed_esb = 0 ∧ esbRateFull bk3 = .nan :=
  ⟨rfl, rfl, ((zero_bus_rate_semantics bk3 rfl).1 rfl).1⟩

/-- Claim C3, counterexample: line 69 assigns the derived
`esb_adoption_rate` column in place, so the loaded dataframe is not left
unchanged by metric computation. -/
theorem rate_assignment_mutates_df : dfWithRate [bk1] ≠ [bk1] := by decide

/-- Claim C3, amended: filtering is non-destructive (city selection yields
rows of the loaded list unchanged), and the in-place rate assignment
preserves every base column of every record, so the loaded records differ
after the pipeline only by the added derived column. -/
theorem pipeline_preserves_base_records (rows : List Row) (c s : String) :
    (dfWithRate rows).map eraseRate = rows.map eraseRate ∧
    (∀ r, r ∈ city_df0 rows c s → r ∈ rows) ∧
    (∀ r, r ∈ state_df rows s → eraseRate r ∈ rows.map eraseRate) := by
  refine ⟨?_, ?_, ?_⟩
  · simp only [dfWithRate, List.map_map]
    rfl
  · intro r hr
    exact List.mem_of_mem_filter hr
  · intro r hr
    rw [mem_state_df_iff] at hr
    obtain ⟨r0, h0, _, heq⟩ := hr
    rw [← heq]
    have hbase : eraseRate { r0 with esb_adoption_rate := some (esbRateFull r0) } = eraseRate r0 := rfl
    rw [hbase]
    exact List.mem_map_of_mem eraseRate h0

/-- Witness for the amended C3: a selected row is literally one of the
loaded rows. -/
theorem pipeline_preserves_base_records_witness :
    bk1 ∈ city_df0 [bk1, bk2] "bakersfield" "california" ∧ bk1 ∈ [bk1, bk2] :=
  ⟨by decide,
    (pipeline_preserves_base_records [bk1, bk2] "bakersfield" "california").2.1 bk1 (by decide)⟩

/-- Claim C10: the per-row adoption rate is computed twice (line 69 over
the full table, line 70 over the city subset); for every row selected into
both tables the two independently computed values agree, so the stored
rows coincide. -/
theorem duplicated_rate_computation_agrees (rows : List Row) (c s : String) (r : Row)
    (h : r ∈ city_df0 rows c s) :
    esbRateFull r = esbRateCity r ∧
    { r with esb_adoption_rate := some (esbRateCity r) } ∈ city_df rows c s ∧
    { r with esb_adoption_rate := some (esbRateFull r) } ∈ dfWithRate rows ∧
    ({ r with esb_adoption_rate := some (esbRateCity r) } : Row) =
      { r with esb_adoption_rate := some (esbRateFull r) } := by
  refine ⟨rfl, ?_, ?_, rfl⟩
  · exact List.mem_map_of_mem _ h
  · exact List.mem_map_of_mem _ (List.mem_of_mem_filter h)

/-- Witness for C10 at the Bakersfield fixture row. -/
theorem duplicated_rate_computation_agrees_witness :
    bk1 ∈ city_df0 [bk1] "bakersfield" "california" ∧
    ({ bk1 with esb_adoption_rate := some (esbRateCity bk1) } : Row) =
      { bk1 with esb_adoption_rate := some (esbRateFull bk1) } :=
  ⟨by decide,
    (duplicated_rate_computation_agrees [bk1] "bakersfield" "california" bk1 (by decide)).2.2.2⟩

/-- Claim C8: a fixture where the ratio-of-sums scope rate and the mean of
per-row rates provably differ: fleets of 10 (1 committed) and 90
(81 committed) give ratio-of-sums 82% but mean-of-ratios 50%. -/
theorem ratio_of_sums_ne_mean_of_ratios :
    ratioOfSums [rA, rB] ≠ meanP ([rA, rB].map esbRateFull) := by
  norm_num [ratioOfSums, sumCommitted, sumTotal, rA, rB, mkRow, esbRateFull, divP, mulP,
    meanP, sumP, addP, isNan]

end ESB

namespace ESB

open PFloat

/-- `state_df` is the state-filtered rows, each with the line-69 rate
stored in the derived column. -/
lemma state_df_eq (rows : List Row) (s : String) :
    state_df rows s = (rows.filter (statePred s)).map
      (fun r => { r with esb_adoption_rate := some (esbRateFull r) }) := by
  rw [state_df, dfWithRate, List.filter_map]
  congr 1

/-- A column read through `List.map` keeps the no-infinity property of its
rows. -/
lemma meanP_col_eq (l : List Row) (f : Row → PFloat)
    (h : ∀ r ∈ l, f r ≠ .pinf ∧ f r ≠ .ninf) :
    meanP (l.map f) = specMean (l.map f) := by
  apply meanP_eq_specMean
  intro x hx
  obtain ⟨r, hr, hrx⟩ := List.mem_map.mp hx
  rw [← hrx]
  exact h r hr

/-- Claim C7: a row is selected into `city_df` iff it is a loaded row whose
city cell contains the selected city and whose state cell contains the
selected state, both case-insensitively (substring, not equality). -/
theorem selection_matching_semantics (rows : List Row) (c s : String) (r : Row)
    (cs ss : String) (hc : r.city = some cs) (hs : r.state = some ss) :
    r ∈ city_df0 rows c s ↔
      r ∈ rows ∧ strContainsCI cs c = true ∧ strContainsCI ss s = true := by
  simp [city_df0, List.mem_filter, cityPred, matchesCI, hc, hs, Bool.and_eq_true, and_assoc]

/-- Witness for C7: lowercase "bakersfield" selects the row whose city
cell is "Bakersfield". -/
theorem selection_matching_semantics_witness :
    bk1 ∈ city_df0 [bk1, bk2, bk3] "bakersfield" "california" :=
  (selection_matching_semantics [bk1, bk2, bk3] "bakersfield" "california" bk1
    "Bakersfield" "CALIFORNIA" rfl rfl).mpr ⟨by decide, by decide, by decide⟩

/-- Claim C6: a selection matching zero rows yields empty `cityRows` and
every city-scope metric NaN (pandas null), with no exception — the
embedding is total, and `0/0` and the empty means evaluate to NaN. -/
theorem empty_selection_all_null (rows : List Row) (c s : String)
    (h : city_df0 rows c s = []) :
    city_df rows c s = [] ∧ adoption rows c s = .nan ∧ pm25City rows c s = .nan ∧
      incomeCity rows c s = .nan ∧ freeLunchCity rows c s = .nan := by
  have h2 : city_df rows c s = [] := by simp [city_df, h]
  refine ⟨h2, ?_, ?_, ?_, ?_⟩
  · simp [adoption, h2, sumCommitted, sumTotal, divP, mulP]
  · simp [pm25City, h2, meanP]
  · simp [incomeCity, h2, meanP]
  · simp [freeLunchCity, h2, meanP]

/-- Witness for C6: the city string "nowhere" matches no fixture row. -/
theorem empty_selection_all_null_witness :
    city_df [bk1] "nowhere" "CALIFORNIA" = [] ∧
      adoption [bk1] "nowhere" "CALIFORNIA" = .nan ∧
      pm25City [bk1] "nowhere" "CALIFORNIA" = .nan ∧
      incomeCity [bk1] "nowhere" "CALIFORNIA" = .nan ∧
      freeLunchCity [bk1] "nowhere" "CALIFORNIA" = .nan :=
  empty_selection_all_null [bk1] "nowhere" "CALIFORNIA" (by decide)

/-- Claim C9: every row of `city_df` is also a row of `state_df` — the city
filter conjoins the same state condition, and the two in-place rate
assignments store the same value. -/
theorem city_rows_subset_state_rows (rows : List Row) (c s : String) (r : Row)
    (h : r ∈ city_df rows c s) : r ∈ state_df rows s := by
  rw [mem_city_df_iff] at h
  obtain ⟨r0, h0, hp, heq⟩ := h
  rw [mem_state_df_iff]
  refine ⟨r0, h0, ?_, heq⟩
  rw [cityPred, Bool.and_eq_true] at hp
  exact hp.2

/-- Witness for C9 at the Bakersfield fixture row. -/
theorem city_rows_subset_state_rows_witness :
    ({ bk1 with esb_adoption_rate := some (esbRateCity bk1) } : Row)
      ∈ state_df [bk1, bk2] "california" :=
  city_rows_subset_state_rows [bk1, bk2] "bakersfield" "california" _
    ((mem_city_df_iff [bk1, bk2] "bakersfield" "california" _).mpr
      ⟨bk1, by decide, by decide, rfl⟩)

/-- Claim C1, counterexample: the state-scope adoption figure of line 79
is not the ratio-of-sums over the state rows — on the two Bakersfield
fixture rows the mean of per-row rates is 22.5 while the ratio-of-sums is
70/3. -/
theorem state_adoption_not_ratio_of_sums :
    stateMeanRate [bk1, bk2] "CALIFORNIA" ≠ ratioOfSums (state_df [bk1, bk2] "CALIFORNIA") := by
  norm_num [stateMeanRate, state_df, dfWithRate, statePred, matchesCI, strContainsCI,
    lowerL, containsSub, startsWithL, esbRateFull, meanP, sumP, addP, divP, mulP, isNan,
    ratioOfSums, sumCommitted, sumTotal, bk1, bk2, mkRow]

/-- Claim C1, amended: the city-scope `adoption` (line 72) is the
ratio-of-sums over the selected city rows, but the state-scope adoption
figure (line 79) is the arithmetic mean of the per-row rates over the
state rows (mean-of-ratios). -/
theorem scope_adoption_rate_semantics (rows : List Row) (c s : String) :
    adoption rows c s = ratioOfSums (city_df0 rows c s) ∧
    stateMeanRate rows s = meanP ((rows.filter (statePred s)).map esbRateFull) := by
  constructor
  · rw [adoption, ratioOfSums, sumCommitted_city_df, sumTotal_city_df]
  · rw [stateMeanRate, state_df_eq, List.map_map]
    rfl

/-- Claim C5: each of the six mean metrics equals the spec's arithmetic
mean over the scope's non-null cells (nulls excluded from numerator and
denominator), provided the columns hold finite-or-null cells; an all-null
scope yields NaN, never zero. -/
theorem scope_means_exclude_nulls (rows : List Row) (c s : String)
    (h : ∀ r ∈ rows, (r.pm25 ≠ .pinf ∧ r.pm25 ≠ .ninf) ∧
        (r.median_income ≠ .pinf ∧ r.median_income ≠ .ninf) ∧
        (r.free_lunch_pct ≠ .pinf ∧ r.free_lunch_pct ≠ .ninf)) :
    pm25City rows c s = specMean ((city_df rows c s).map (fun r => r.pm25)) ∧
    incomeCity rows c s = specMean ((city_df rows c s).map (fun r => r.median_income)) ∧
    freeLunchCity rows c s = specMean ((city_df rows c s).map (fun r => r.free_lunch_pct)) ∧
    stateMeanPm25 rows s = specMean ((state_df rows s).map (fun r => r.pm25)) ∧
    stateMeanIncome rows s = specMean ((state_df rows s).map (fun r => r.median_income)) ∧
    stateMeanFreeLunch rows s = specMean ((state_df rows s).map (fun r => r.free_lunch_pct)) ∧
    specMean ([] : List PFloat) = .nan := by
  have hcity : ∀ r ∈ city_df rows c s, (r.pm25 ≠ .pinf ∧ r.pm25 ≠ .ninf) ∧
      (r.median_income ≠ .pinf ∧ r.median_income ≠ .ninf) ∧
      (r.free_lunch_pct ≠ .pinf ∧ r.free_lunch_pct ≠ .ninf) := by
    intro r hr
    rw [mem_city_df_iff] at hr
    obtain ⟨r0, h0, _, heq⟩ := hr
    rw [← heq]
    exact h r0 h0
  have hstate : ∀ r ∈ state_df rows s, (r.pm25 ≠ .pinf ∧ r.pm25 ≠ .ninf) ∧
      (r.median_income ≠ .pinf ∧ r.median_income ≠ .ninf) ∧
      (r.free_lunch_pct ≠ .pinf ∧ r.free_lunch_pct ≠ .ninf) := by
    intro r hr
    rw [mem_state_df_iff] at hr
    obtain ⟨r0, h0, _, heq⟩ := hr
    rw [← heq]
    exact h r0 h0
  refine ⟨?_, ?_, ?_, ?_, ?_, ?_, rfl⟩
  · exact meanP_col_eq _ _ (fun r hr => (hcity r hr).1)
  · exact meanP_col_eq _ _ (fun r hr => (hcity r hr).2.1)
  · exact meanP_col_eq _ _ (fun r hr => (hcity r hr).2.2)
  · exact meanP_col_eq _ _ (fun r hr => (hstate r hr).1)
  · exact meanP_col_eq _ _ (fun r hr => (hstate r hr).2.1)
  · exact meanP_col_eq _ _ (fun r hr => (hstate r hr).2.2)

/-- Witness for C5 on the spec's §8 scenario: pm25 cells [12, null, 8]
give city mean 10, not 20/3. -/
theorem scope_means_exclude_nulls_witness :
    pm25City [bk1, bk2, bk3] "bakersfield" "california" =
      specMean ((city_df [bk1, bk2, bk3] "bakersfield" "california").map (fun r => r.pm25)) ∧
    pm25City [bk1, bk2, bk3] "bakersfield" "california" = .val 10 :=
  ⟨(scope_means_exclude_nulls [bk1, bk2, bk3] "bakersfield" "california" (by decide)).1,
   by
     have h0 : city_df0 [bk1, bk2, bk3] "bakersfield" "california" = [bk1, bk2, bk3] := by
       decide
     simp only [pm25City, city_df]
     rw [h0]
     simp only [List.map_cons, List.map_nil, bk1, bk2, bk3, mkRow]
     norm_num [meanP, sumP, addP, divP, isNan]⟩

end ESB
